import Mathlib

/-!
Verification of the crypto-signals repository (Python) against its
natural-language specification.  Real-valued Python quantities are modelled
over `ℚ` (the code only adds, subtracts, multiplies, divides and compares;
floating-point representation error is not modelled), Python `int` is `ℤ`.
Python `int(x)` truncates toward zero (`truncQ`); Python `round` uses
round-half-to-even (`pyRound`, `roundTo`).
-/

namespace CryptoSignals

/-- Python `int(x)` applied to a real value: truncation toward zero. -/
def truncQ (q : ℚ) : ℤ := if 0 ≤ q then ⌊q⌋ else ⌈q⌉

/-- Python `round(x)`: nearest integer, ties to even. -/
def pyRound (q : ℚ) : ℤ :=
  if q - ⌊q⌋ < 1 / 2 then ⌊q⌋
  else if 1 / 2 < q - ⌊q⌋ then ⌊q⌋ + 1
  else if ⌊q⌋ % 2 = 0 then ⌊q⌋ else ⌊q⌋ + 1

/-- Python `round(x, n)`: rounding to `n` decimal places. -/
def roundTo (n : ℕ) (q : ℚ) : ℚ := (pyRound (q * 10 ^ n) : ℚ) / 10 ^ n

/-- Rendering of a `%.1f` format substitution (used only inside warning
strings, which no claim inspects numerically). -/
def fmt1 (q : ℚ) : String :=
  let t := pyRound (q * 10)
  (if t < 0 then "-" else "") ++ toString (t.natAbs / 10) ++ "." ++ toString (t.natAbs % 10)

/-! ## Data model (fetcher.py, config.py, security_checker.py, smart_money.py) -/

/-- fetcher.py `TokenData`: token market data from DEXScreener. -/
structure TokenData where
  symbol : String
  address : String
  price_usd : ℚ
  price_change_5m : ℚ
  price_change_1h : ℚ
  price_change_6h : ℚ
  price_change_24h : ℚ
  volume_5m : ℚ
  volume_1h : ℚ
  volume_6h : ℚ
  volume_24h : ℚ
  liquidity_usd : ℚ
  txns_buys_5m : ℤ
  txns_sells_5m : ℤ
  txns_buys_1h : ℤ
  txns_sells_1h : ℤ
  txns_buys_24h : ℤ
  txns_sells_24h : ℤ
  fdv : ℚ
  pair_address : String
  dex_id : String
deriving DecidableEq

/-- config.py `ScoringWeights` (defaults 20, 20, 25, 20, 15). -/
structure ScoringWeights where
  liquidity : ℤ := 20
  volume_liquidity_ratio : ℤ := 20
  price_momentum : ℤ := 25
  buy_pressure : ℤ := 20
  trend_strength : ℤ := 15
deriving DecidableEq

/-- The default `ScoringWeights()` used when `SignalAnalyzer` gets none. -/
def defaultWeights : ScoringWeights := {}

/-- security_checker.py `RiskLevel` enum. -/
inductive RiskLevel where
  | LOW
  | MEDIUM
  | HIGH
  | CRITICAL
deriving DecidableEq

/-- The `.value` of a `RiskLevel` member (its string payload). -/
def RiskLevel.value : RiskLevel → String
  | .LOW => "LOW"
  | .MEDIUM => "MEDIUM"
  | .HIGH => "HIGH"
  | .CRITICAL => "CRITICAL"

/-- security_checker.py `LiquidityLock`. -/
structure LiquidityLock where
  is_locked : Bool
  lock_percentage : ℚ
  unlock_date : Option String
  locker_name : Option String
  lock_duration_days : ℤ
deriving DecidableEq

/-- security_checker.py `BundleAnalysis`. -/
structure BundleAnalysis where
  is_bundled : Bool
  bundle_percentage : ℚ
  bundled_wallets_count : ℤ
  deployer_holdings_pct : ℚ
  top_10_holders_pct : ℚ
  sniper_count : ℤ
deriving DecidableEq

/-- security_checker.py `SecurityReport`. -/
structure SecurityReport where
  token_address : String
  risk_level : RiskLevel
  risk_score : ℤ
  liquidity_lock : LiquidityLock
  bundle_analysis : BundleAnalysis
  is_mintable : Bool
  is_freezable : Bool
  has_blacklist : Bool
  is_mutable : Bool
  buy_tax : ℚ
  sell_tax : ℚ
  max_buy_limit : Option ℚ
  is_audited : Bool
  audit_provider : Option String
  rugcheck_score : Option ℤ
  rugcheck_risks : List String
deriving DecidableEq

/-- smart_money.py `WhaleActivity`. -/
structure WhaleActivity where
  whale_buys_24h : ℤ
  whale_sells_24h : ℤ
  whale_net_flow : ℚ
  large_txns_count : ℤ
  smart_money_holding : ℚ
deriving DecidableEq

/-- smart_money.py `HolderAnalysis`. -/
structure HolderAnalysis where
  total_holders : ℤ
  holder_change_24h : ℤ
  holder_change_pct : ℚ
  top_10_concentration : ℚ
  fresh_wallet_pct : ℚ
  avg_hold_time_hours : ℚ
  diamond_hands_pct : ℚ
deriving DecidableEq

/-- smart_money.py `TopTraderSignal`. -/
structure TopTraderSignal where
  top_traders_buying : ℤ
  top_traders_selling : ℤ
  avg_trader_pnl : ℚ
  profitable_holder_pct : ℚ
deriving DecidableEq

/-- smart_money.py `SocialSentiment`. -/
structure SocialSentiment where
  social_score : ℤ
  mentions_24h : ℤ
  mentions_change_pct : ℚ
  sentiment : String
  sentiment_score : ℚ
  influencer_mentions : ℤ
  trending_rank : ℤ
  galaxy_score : ℤ
deriving DecidableEq

/-- smart_money.py `SmartMoneyReport`. -/
structure SmartMoneyReport where
  token_address : String
  whale_activity : WhaleActivity
  holder_analysis : HolderAnalysis
  trader_signals : TopTraderSignal
  social_sentiment : SocialSentiment
  smart_money_score : ℤ
  signal : String
  confidence : String
deriving DecidableEq

/-! ## technical.py `TechnicalAnalyzer` -/

/-- The `changes` list of `calculate_rsi`:
`[prices[i] - prices[i-1] for i in range(1, len(prices))]`. -/
def rsiChanges (prices : List ℚ) : List ℚ :=
  (prices.tail.zip prices).map fun p => p.1 - p.2

/-- The `gains` list of `calculate_rsi`. -/
def rsiGains (prices : List ℚ) : List ℚ :=
  (rsiChanges prices).map fun c => if 0 < c then c else 0

/-- The `losses` list of `calculate_rsi`. -/
def rsiLosses (prices : List ℚ) : List ℚ :=
  (rsiChanges prices).map fun c => if c < 0 then -c else 0

/-- One EMA-smoothing step of `calculate_rsi` on the `(avg_gain, avg_loss)`
pair. -/
def rsiStep (period : ℕ) (a gl : ℚ × ℚ) : ℚ × ℚ :=
  ((a.1 * ((period - 1 : ℕ) : ℚ) + gl.1) / period,
   (a.2 * ((period - 1 : ℕ) : ℚ) + gl.2) / period)

/-- The final `(avg_gain, avg_loss)` pair of `calculate_rsi`: SMA of the
first `period` gains/losses, then EMA smoothing over the rest. -/
def rsiAvgs (prices : List ℚ) (period : ℕ) : ℚ × ℚ :=
  (((rsiGains prices).drop period).zip ((rsiLosses prices).drop period)).foldl
    (rsiStep period)
    (((rsiGains prices).take period).sum / period,
     ((rsiLosses prices).take period).sum / period)

/-- technical.py `TechnicalAnalyzer.calculate_rsi`: RSI from a price list
(neutral 50.0 when fewer than `period + 1` points, 100.0 when the smoothed
average loss is zero, else `round(100 - 100/(1+rs), 2)`). -/
def calculateRsi (prices : List ℚ) (period : ℕ) : ℚ :=
  if prices.length < period + 1 then 50
  else if (rsiAvgs prices period).2 = 0 then 100
  else roundTo 2 (100 - 100 / (1 + (rsiAvgs prices period).1 / (rsiAvgs prices period).2))

/-- Python `max` of a non-empty list (`listMax [] = 0` stands in for the
`ValueError` Python raises on an empty list, which no claim reaches). -/
def listMax : List ℚ → ℚ
  | [] => 0
  | a :: t => t.foldl max a

/-- Python `min` of a non-empty list (same caveat as `listMax`). -/
def listMin : List ℚ → ℚ
  | [] => 0
  | a :: t => t.foldl min a

/-- The slice `prices[-lookback:]`: the last `lookback` entries, or the whole
list when `lookback = 0` (Python slice semantics). -/
def recentSlice (prices : List ℚ) (lookback : ℕ) : List ℚ :=
  if lookback = 0 then prices else prices.drop (prices.length - lookback)

/-- The `range_size / avg_price` ratio computed inside
`detect_consolidation_break` over the recent slice. -/
def consolRangePercent (prices : List ℚ) (lookback : ℕ) : ℚ :=
  let recent := recentSlice prices lookback
  (listMax recent - listMin recent) / (recent.sum / recent.length)

/-- The `avg_price` of the recent slice in `detect_consolidation_break`. -/
def consolAvgPrice (prices : List ℚ) (lookback : ℕ) : ℚ :=
  (recentSlice prices lookback).sum / ((recentSlice prices lookback).length : ℚ)

/-- technical.py `TechnicalAnalyzer.detect_consolidation_break`: true only on
a tight recent range (`range/avg < threshold`) broken 2% above its high.
(On `lookback = 0` with an empty list Python raises `ValueError` from
`max([])`; `listMax [] = 0` stands in, and no claim reaches that corner.) -/
def detectConsolidationBreak (prices : List ℚ) (currentPrice : ℚ)
    (lookback : ℕ) (threshold : ℚ) : Bool :=
  if prices.length < lookback then false
  else if consolAvgPrice prices lookback = 0 then false
  else if consolRangePercent prices lookback < threshold then
    (if currentPrice > listMax (recentSlice prices lookback) * (51 / 50) then true else false)
  else false

/-- technical.py `TechnicalAnalyzer.calculate_vwap`: returns
`(round(vwap, 8), round(deviation_pct, 2))`. -/
def calculateVwap (prices volumes : List ℚ) : ℚ × ℚ :=
  if prices = [] ∨ volumes = [] ∨ prices.length ≠ volumes.length then (0, 0)
  else if volumes.sum = 0 then (prices.getLastD 0, 0)
  else
    let vwap := ((prices.zip volumes).map fun pv => pv.1 * pv.2).sum / volumes.sum
    (roundTo 8 vwap,
     roundTo 2 (if 0 < vwap then ((prices.getLastD 0 - vwap) / vwap) * 100 else 0))

/-! ## smart_money.py `SmartMoneyTracker._calculate_score` -/

/-- The whale buy-ratio contribution of `_calculate_score` (smart_money.py):
`buy_ratio = whale_buys_24h / (whale_buys_24h + whale_sells_24h + 1)`, then
`+8` above 0.6 and `-8` below 0.4.  Note the `+ 1` in the denominator. -/
def whaleRatioDelta (buys sells : ℤ) : ℚ :=
  let r : ℚ := (buys : ℚ) / ((buys : ℚ) + (sells : ℚ) + 1)
  if r > 3 / 5 then 8 else if r < 2 / 5 then -8 else 0

/-- smart_money.py `SmartMoneyTracker._calculate_score`: overall smart-money
score, signal and confidence. -/
def calculateScore (whale : WhaleActivity) (holders : HolderAnalysis)
    (traders : TopTraderSignal) (social : SocialSentiment) : ℤ × String × String :=
  let score : ℚ := 50
  let score := if 0 < whale.whale_net_flow then score + min 12 (whale.whale_net_flow / 10000)
    else score + max (-12) (whale.whale_net_flow / 10000)
  let score := score + whaleRatioDelta whale.whale_buys_24h whale.whale_sells_24h
  let score := if 100 < holders.holder_change_24h then score + 8
    else if 50 < holders.holder_change_24h then score + 4
    else if holders.holder_change_24h < -50 then score - 8 else score
  let score := if 70 < holders.top_10_concentration then score - 8
    else if 50 < holders.top_10_concentration then score - 4 else score
  let score := if 30 < holders.fresh_wallet_pct then score - 4 else score
  let score := if (traders.top_traders_selling : ℚ) * (3 / 2) < (traders.top_traders_buying : ℚ) then score + 12
    else if (traders.top_traders_buying : ℚ) * (3 / 2) < (traders.top_traders_selling : ℚ) then score - 12 else score
  let score := if 60 < traders.profitable_holder_pct then score + 4
    else if traders.profitable_holder_pct < 40 then score - 4 else score
  let score := if 70 ≤ social.social_score then score + 10
    else if 60 ≤ social.social_score then score + 5
    else if social.social_score ≤ 30 then score - 10
    else if social.social_score ≤ 40 then score - 5 else score
  let score := if social.sentiment = "BULLISH" then score + 5
    else if social.sentiment = "BEARISH" then score - 5 else score
  let score := if 3 ≤ social.influencer_mentions then score + 5
    else if 1 ≤ social.influencer_mentions then score + 2 else score
  let score := if 0 < social.trending_rank ∧ social.trending_rank ≤ 25 then score + 5 else score
  let scoreInt : ℤ := max 0 (min 100 (truncQ score))
  let signal := if 65 ≤ scoreInt then "ACCUMULATION"
    else if scoreInt ≤ 35 then "DISTRIBUTION" else "NEUTRAL"
  let dataQuality : ℤ :=
    (if 0 < whale.whale_buys_24h then 1 else 0) +
    (if 0 < holders.total_holders then 1 else 0) +
    (if 0 < traders.top_traders_buying + traders.top_traders_selling then 1 else 0) +
    (if 0 < social.mentions_24h ∨ 0 < social.galaxy_score then 1 else 0)
  let confidence := if 4 ≤ dataQuality ∧ (70 ≤ scoreInt ∨ scoreInt ≤ 30) then "HIGH"
    else if 3 ≤ dataQuality then "MEDIUM" else "LOW"
  (scoreInt, signal, confidence)

/-! ## analyzer.py `SignalAnalyzer` -/

/-- The `factors` breakdown dict built by `_calculate_pop` (keys "momentum",
"volume", "buy_pressure", "liquidity", "security", "trend", "smart_money",
"bundle_impact"). -/
structure PoPFactors where
  momentum : ℤ
  volume : ℤ
  buy_pressure : ℤ
  liquidity : ℤ
  security : ℤ
  trend : ℤ
  smart_money : ℤ
  bundle_impact : ℤ
deriving DecidableEq

/-- analyzer.py `PoPAnalysis`. -/
structure PoPAnalysis where
  pop_score : ℤ
  confidence : String
  factors : PoPFactors
  expected_return : ℚ
  max_drawdown : ℚ
deriving DecidableEq

/-- analyzer.py `SignalAnalysis`. -/
structure SignalAnalysis where
  symbol : String
  address : String
  price_usd : ℚ
  total_score : ℤ
  liquidity_score : ℤ
  volume_ratio_score : ℤ
  momentum_score : ℤ
  buy_pressure_score : ℤ
  trend_score : ℤ
  security_score : ℤ
  lock_score : ℤ
  bundle_penalty : ℤ
  smart_money_score : ℤ
  smart_money_signal : String
  smart_money_confidence : String
  whale_net_flow : ℚ
  top_traders_buying : ℤ
  top_traders_selling : ℤ
  social_score : ℤ
  social_sentiment : String
  social_mentions_24h : ℤ
  social_mentions_change : ℚ
  influencer_mentions : ℤ
  galaxy_score : ℤ
  pop : PoPAnalysis
  entry_price : ℚ
  stop_loss : ℚ
  take_profit_1 : ℚ
  take_profit_2 : ℚ
  take_profit_3 : ℚ
  risk_reward_ratio : ℚ
  signal_strength : String
  is_locked : Bool
  lock_percentage : ℚ
  is_bundled : Bool
  bundle_percentage : ℚ
  risk_level : String
  security_warnings : List String
deriving DecidableEq

/-- analyzer.py `SignalAnalyzer._score_liquidity` (0-20 points;
MIN_LIQUIDITY_USD = 50000, IDEAL_LIQUIDITY_USD = 500000). -/
def scoreLiquidity (w : ScoringWeights) (liquidityUsd : ℚ) : ℤ :=
  let maxPoints := w.liquidity
  if liquidityUsd < 50000 then 0
  else if 500000 ≤ liquidityUsd then maxPoints
  else truncQ ((liquidityUsd - 50000) / (500000 - 50000) * (maxPoints : ℚ))

/-- analyzer.py `SignalAnalyzer._score_volume_ratio` (0-20 points;
IDEAL_VOLUME_RATIO = 0.5, MAX_VOLUME_RATIO = 2.0). -/
def scoreVolumeRatio (w : ScoringWeights) (volume24h liquidity : ℚ) : ℤ :=
  let maxPoints := w.volume_liquidity_ratio
  if liquidity ≤ 0 then 0
  else
    let ratio := volume24h / liquidity
    if ratio < 1 / 10 then truncQ ((maxPoints : ℚ) * (1 / 5))
    else if ratio < 1 / 2 then truncQ ((maxPoints : ℚ) * (1 / 5 + (4 / 5) * (ratio / (1 / 2))))
    else if ratio ≤ 1 then maxPoints
    else if ratio ≤ 2 then truncQ ((maxPoints : ℚ) * (4 / 5))
    else truncQ ((maxPoints : ℚ) * (1 / 2))

/-- analyzer.py `SignalAnalyzer._score_momentum` (0-25 points). -/
def scoreMomentum (w : ScoringWeights) (d : TokenData) : ℤ :=
  let maxPoints := w.price_momentum
  let score : ℚ := 0
  let score := if 0 < d.price_change_5m then score + min 5 (d.price_change_5m / 2) else score
  let score := if 0 < d.price_change_1h then score + min 8 (d.price_change_1h / (3 / 2)) else score
  let score := if 0 < d.price_change_6h then score + min 6 (d.price_change_6h / 2) else score
  let score := if 0 < d.price_change_24h then score + min 6 (d.price_change_24h / 3) else score
  let score := if 50 < d.price_change_1h then score * (1 / 2) else score
  min maxPoints (truncQ score)

/-- The local `buy_ratio` helper inside `_score_buy_pressure`. -/
def buyRatio (buys sells : ℤ) : ℚ :=
  let total := buys + sells
  if 0 < total then (buys : ℚ) / (total : ℚ) else 1 / 2

/-- analyzer.py `SignalAnalyzer._score_buy_pressure` (0-20 points). -/
def scoreBuyPressure (w : ScoringWeights) (d : TokenData) : ℤ :=
  let maxPoints := w.buy_pressure
  let ratio5m := buyRatio d.txns_buys_5m d.txns_sells_5m
  let ratio1h := buyRatio d.txns_buys_1h d.txns_sells_1h
  let ratio24h := buyRatio d.txns_buys_24h d.txns_sells_24h
  let weightedRatio := ratio5m * (2 / 5) + ratio1h * (7 / 20) + ratio24h * (1 / 4)
  if weightedRatio ≤ 1 / 2 then 0
  else if 7 / 10 ≤ weightedRatio then maxPoints
  else truncQ ((weightedRatio - 1 / 2) / (1 / 5) * (maxPoints : ℚ))

/-- analyzer.py `SignalAnalyzer._score_trend` (0-15 points). -/
def scoreTrend (w : ScoringWeights) (d : TokenData) : ℤ :=
  let maxPoints := w.trend_strength
  let positiveCount : ℤ :=
    (if 0 < d.price_change_5m then 1 else 0) + (if 0 < d.price_change_1h then 1 else 0) +
    (if 0 < d.price_change_6h then 1 else 0) + (if 0 < d.price_change_24h then 1 else 0)
  let score : ℤ := if positiveCount = 4 then 8
    else if positiveCount = 3 then 5
    else if positiveCount = 2 then 2 else 0
  let score := if 0 < d.volume_1h ∧ 0 < d.volume_24h then
      (if d.volume_24h / 24 * (3 / 2) < d.volume_1h then score + 4
       else if d.volume_24h / 24 < d.volume_1h then score + 2 else score)
    else score
  let totalTxns1h := d.txns_buys_1h + d.txns_sells_1h
  let score := if 100 < totalTxns1h then score + 3
    else if 50 < totalTxns1h then score + 1 else score
  min maxPoints score

/-- analyzer.py `SignalAnalyzer._score_security`: returns
`(security_score, lock_score, bundle_penalty, warnings)`. -/
def scoreSecurity (report : Option SecurityReport) : ℤ × ℤ × ℤ × List String :=
  match report with
  | none => (0, 0, 0, ["Security data unavailable"])
  | some r =>
    let lockScore : ℤ :=
      if r.liquidity_lock.is_locked then
        (if 95 ≤ r.liquidity_lock.lock_percentage then 10
         else if 80 ≤ r.liquidity_lock.lock_percentage then 7
         else if 50 ≤ r.liquidity_lock.lock_percentage then 4 else 0)
      else 0
    let b := r.bundle_analysis
    let p1 : ℤ := if b.is_bundled then 0 + 10 else 0
    let p2 := if 20 < b.deployer_holdings_pct then p1 + 8 else p1
    let p3 := if 60 < b.top_10_holders_pct then p2 + 7 else p2
    let p4 := if 20 < b.sniper_count then p3 + 5 else p3
    let p5 := if r.is_mintable then p4 + 5 else p4
    let p6 := if r.is_freezable then p5 + 5 else p5
    let bundlePenalty := if r.is_mutable then p6 + 2 else p6
    let warnings : List String :=
      (if r.liquidity_lock.is_locked then [] else ["Liquidity NOT locked"]) ++
      (if b.is_bundled then ["Token bundled (" ++ fmt1 b.bundle_percentage ++ "% concentrated)"] else []) ++
      (if 20 < b.deployer_holdings_pct then ["Deployer holds " ++ fmt1 b.deployer_holdings_pct ++ "%"] else []) ++
      (if 60 < b.top_10_holders_pct then ["Top 10 hold " ++ fmt1 b.top_10_holders_pct ++ "%"] else []) ++
      (if 20 < b.sniper_count then ["High sniper activity (" ++ toString b.sniper_count ++ " wallets)"] else []) ++
      (if r.is_mintable then ["Mint authority enabled"] else []) ++
      (if r.is_freezable then ["Freeze authority enabled"] else []) ++
      (if r.is_mutable then ["Metadata is mutable"] else [])
    let securityScore := lockScore +
      (match r.rugcheck_score with
       | some s => if s ≠ 0 then min 5 (s.fdiv 200) else 0
       | none => 0)
    (securityScore, lockScore, bundlePenalty, warnings)

/-- analyzer.py `SignalAnalyzer._score_smart_money`: returns
`(score, signal, confidence, bonus_points)`. -/
def scoreSmartMoney (report : Option SmartMoneyReport) : ℤ × String × String × ℤ :=
  match report with
  | none => (50, "NEUTRAL", "LOW", 0)
  | some r =>
    let bonus : ℤ := 0
    let bonus := if r.signal = "ACCUMULATION" then bonus + (if r.confidence = "HIGH" then 10 else 5)
      else if r.signal = "DISTRIBUTION" then bonus - (if r.confidence = "HIGH" then 10 else 5)
      else bonus
    let bonus := if 50000 < r.whale_activity.whale_net_flow then bonus + 5
      else if r.whale_activity.whale_net_flow < -50000 then bonus - 5 else bonus
    let bonus := if r.trader_signals.top_traders_selling * 2 < r.trader_signals.top_traders_buying then bonus + 5
      else if r.trader_signals.top_traders_buying * 2 < r.trader_signals.top_traders_selling then bonus - 5 else bonus
    let bonus := if 70 < r.trader_signals.profitable_holder_pct then bonus + 3
      else if r.trader_signals.profitable_holder_pct < 30 then bonus - 3 else bonus
    (r.smart_money_score, r.signal, r.confidence, bonus)

/-- analyzer.py `SignalAnalyzer._get_risk_multiplier`: 1.5 when no report,
else 1.0 / 1.25 / 1.5 / 2.0 by risk level. -/
def riskMultiplier (report : Option SecurityReport) : ℚ :=
  match report with
  | none => 3 / 2
  | some r =>
    match r.risk_level with
    | RiskLevel.LOW => 1
    | RiskLevel.MEDIUM => 5 / 4
    | RiskLevel.HIGH => 3 / 2
    | RiskLevel.CRITICAL => 2

/-- The `expected_return` branch of `_calculate_pop` (analyzer.py lines
436-443), including the final `round(expected_return, 1)`. -/
def expectedReturn (popScore : ℤ) : ℚ :=
  roundTo 1 (if 70 ≤ popScore then 15 + ((popScore : ℚ) - 70) * (1 / 2)
    else if 50 ≤ popScore then 5 + ((popScore : ℚ) - 50) * (1 / 2)
    else -5 + (popScore : ℚ) * (1 / 5))

/-- The `expected_return` tenths, as an integer-valued function of the PoP
score (every branch of the Python formula is an exact multiple of 0.1). -/
def erTenths (p : ℤ) : ℤ :=
  if 70 ≤ p then 150 + 5 * (p - 70)
  else if 50 ≤ p then 50 + 5 * (p - 50)
  else -50 + 2 * p

/-- The `max_drawdown` branch of `_calculate_pop`, including
`round(max_drawdown, 1)`. -/
def maxDrawdown (popScore : ℤ) : ℚ :=
  roundTo 1 (if 70 ≤ popScore then 8 + (100 - (popScore : ℚ)) * (1 / 5)
    else if 50 ≤ popScore then 12 + (70 - (popScore : ℚ)) * (3 / 10)
    else 15 + (50 - (popScore : ℚ)) * (2 / 5))

/-- analyzer.py `SignalAnalyzer._calculate_pop` (POP_WEIGHTS: momentum 0.15,
volume 0.10, buy_pressure 0.15, liquidity 0.10, security 0.20, trend 0.10,
smart_money 0.20). -/
def calculatePop (td : TokenData) (sr : Option SecurityReport)
    (smr : Option SmartMoneyReport)
    (liquidityScore volumeRatioScore momentumScore buyPressureScore trendScore bundlePenalty : ℤ) :
    PoPAnalysis :=
  let momentumNorm : ℚ := (momentumScore : ℚ) / 25
  let volumeNorm : ℚ := (volumeRatioScore : ℚ) / 20
  let buyPressureNorm : ℚ := (buyPressureScore : ℚ) / 20
  let liquidityNorm : ℚ := (liquidityScore : ℚ) / 20
  let trendNorm : ℚ := (trendScore : ℚ) / 15
  let securityNorm : ℚ := match sr with
    | some r => max 0 (1 - (r.risk_score : ℚ) / 100)
    | none => 1 / 2
  let smartMoneyNorm : ℚ := match smr with
    | some r =>
      let s : ℚ := (r.smart_money_score : ℚ) / 100
      if r.signal = "ACCUMULATION" then min 1 (s * (6 / 5))
      else if r.signal = "DISTRIBUTION" then max 0 (s * (4 / 5))
      else s
    | none => 1 / 2
  let bundleFactor : ℚ := max 0 (1 - (bundlePenalty : ℚ) / 30)
  let basePop : ℚ :=
    momentumNorm * (3 / 20) + volumeNorm * (1 / 10) + buyPressureNorm * (3 / 20) +
    liquidityNorm * (1 / 10) + securityNorm * (1 / 5) + trendNorm * (1 / 10) +
    smartMoneyNorm * (1 / 5)
  let adjustedPop := basePop * bundleFactor
  let adjustedPop := if 7 / 10 < momentumNorm ∧ 7 / 10 < buyPressureNorm
    then adjustedPop * (11 / 10) else adjustedPop
  let adjustedPop := match sr with
    | some r => if r.liquidity_lock.is_locked ∧ ¬ r.bundle_analysis.is_bundled
        then adjustedPop * (23 / 20) else adjustedPop
    | none => adjustedPop
  let adjustedPop := if 50 < td.price_change_1h then adjustedPop * (7 / 10)
    else if 30 < td.price_change_1h then adjustedPop * (17 / 20) else adjustedPop
  let popScore : ℤ := min 95 (max 5 (truncQ (adjustedPop * 100)))
  let dataCompleteness : ℚ :=
    (((if 0 < liquidityScore then 1 else 0) + (if 0 < volumeRatioScore then 1 else 0) +
      (if sr.isSome then 1 else 0) + (if smr.isSome then 1 else 0) +
      (if 50 < td.txns_buys_1h + td.txns_sells_1h then 1 else 0) : ℚ)) / 5
  let confidence := if 3 / 4 ≤ dataCompleteness ∧ 60 ≤ popScore then "HIGH"
    else if 1 / 2 ≤ dataCompleteness then "MEDIUM" else "LOW"
  let factors : PoPFactors :=
    { momentum := pyRound (momentumNorm * 100)
      volume := pyRound (volumeNorm * 100)
      buy_pressure := pyRound (buyPressureNorm * 100)
      liquidity := pyRound (liquidityNorm * 100)
      security := pyRound (securityNorm * 100)
      trend := pyRound (trendNorm * 100)
      smart_money := pyRound (smartMoneyNorm * 100)
      bundle_impact := pyRound ((1 - bundleFactor) * 100) }
  { pop_score := popScore
    confidence := confidence
    factors := factors
    expected_return := expectedReturn popScore
    max_drawdown := maxDrawdown popScore }

/-- analyzer.py `SignalAnalyzer._get_signal_strength`. -/
def signalStrength (score popScore : ℤ) : String :=
  let combined : ℚ := ((score : ℚ) + (popScore : ℚ)) / 2
  if 80 ≤ combined ∧ 65 ≤ popScore then "STRONG"
  else if 65 ≤ combined ∧ 50 ≤ popScore then "MODERATE"
  else if 50 ≤ combined then "WEAK"
  else "NO SIGNAL"

/-- analyzer.py `SignalAnalyzer.analyze`: the full fusion of technical,
security and smart-money scoring into a `SignalAnalysis`. -/
def analyze (w : ScoringWeights) (td : TokenData) (sr : Option SecurityReport)
    (smr : Option SmartMoneyReport) : SignalAnalysis :=
  let liquidityScore := scoreLiquidity w td.liquidity_usd
  let volumeRatioScore := scoreVolumeRatio w td.volume_24h td.liquidity_usd
  let momentumScore := scoreMomentum w td
  let buyPressureScore := scoreBuyPressure w td
  let trendScore := scoreTrend w td
  let sec := scoreSecurity sr
  let sm := scoreSmartMoney smr
  let baseScore := liquidityScore + volumeRatioScore + momentumScore + buyPressureScore + trendScore
  let totalScore : ℤ := max 0 (min 100 (baseScore + sec.1 - sec.2.2.1 + sm.2.2.2))
  let pop := calculatePop td sr smr liquidityScore volumeRatioScore momentumScore
    buyPressureScore trendScore sec.2.2.1
  let entryPrice := td.price_usd
  let m := riskMultiplier sr
  let stopLoss := entryPrice * (1 - (2 / 25) * m)
  let takeProfit1 := entryPrice * (1 + (3 / 20) / m)
  let takeProfit2 := entryPrice * (1 + (3 / 10) / m)
  let takeProfit3 := entryPrice * (1 + (1 / 2) / m)
  let risk := entryPrice - stopLoss
  let reward := takeProfit2 - entryPrice
  let riskReward : ℚ := if 0 < risk then reward / risk else 0
  { symbol := td.symbol
    address := td.address
    price_usd := entryPrice
    total_score := totalScore
    liquidity_score := liquidityScore
    volume_ratio_score := volumeRatioScore
    momentum_score := momentumScore
    buy_pressure_score := buyPressureScore
    trend_score := trendScore
    security_score := sec.1
    lock_score := sec.2.1
    bundle_penalty := sec.2.2.1
    smart_money_score := sm.1
    smart_money_signal := sm.2.1
    smart_money_confidence := sm.2.2.1
    whale_net_flow := match smr with | some r => r.whale_activity.whale_net_flow | none => 0
    top_traders_buying := match smr with | some r => r.trader_signals.top_traders_buying | none => 0
    top_traders_selling := match smr with | some r => r.trader_signals.top_traders_selling | none => 0
    social_score := match smr with | some r => r.social_sentiment.social_score | none => 50
    social_sentiment := match smr with | some r => r.social_sentiment.sentiment | none => "NEUTRAL"
    social_mentions_24h := match smr with | some r => r.social_sentiment.mentions_24h | none => 0
    social_mentions_change := match smr with | some r => r.social_sentiment.mentions_change_pct | none => 0
    influencer_mentions := match smr with | some r => r.social_sentiment.influencer_mentions | none => 0
    galaxy_score := match smr with | some r => r.social_sentiment.galaxy_score | none => 0
    pop := pop
    entry_price := entryPrice
    stop_loss := stopLoss
    take_profit_1 := takeProfit1
    take_profit_2 := takeProfit2
    take_profit_3 := takeProfit3
    risk_reward_ratio := roundTo 2 riskReward
    signal_strength := signalStrength totalScore pop.pop_score
    is_locked := match sr with | some r => r.liquidity_lock.is_locked | none => false
    lock_percentage := match sr with | some r => r.liquidity_lock.lock_percentage | none => 0
    is_bundled := match sr with | some r => r.bundle_analysis.is_bundled | none => false
    bundle_percentage := match sr with | some r => r.bundle_analysis.bundle_percentage | none => 0
    risk_level := match sr with | some r => r.risk_level.value | none => "UNKNOWN"
    security_warnings := sec.2.2.2 }

/-- The error a Python caller of `analyze` could observe as an exception.
The body of `SignalAnalyzer.analyze` contains no `raise` statement and every
division in its call tree is guarded, so no error value is ever produced. -/
inductive AnalyzeError where
  | invalidInput
deriving DecidableEq

/-- `SignalAnalyzer.analyze` seen as a fallible Python call: it always
returns normally (the code has no failure path). -/
def analyzeE (w : ScoringWeights) (td : TokenData) (sr : Option SecurityReport)
    (smr : Option SmartMoneyReport) : Except AnalyzeError SignalAnalysis :=
  Except.ok (analyze w td sr smr)

/-! ## Concrete inputs used as witnesses and counterexamples -/

/-- A token snapshot with entry price 1.00 and every other numeric field 0. -/
def oneToken : TokenData :=
  { symbol := "ONE", address := "addr1", price_usd := 1, price_change_5m := 0,
    price_change_1h := 0, price_change_6h := 0, price_change_24h := 0,
    volume_5m := 0, volume_1h := 0, volume_6h := 0, volume_24h := 0,
    liquidity_usd := 0, txns_buys_5m := 0, txns_sells_5m := 0,
    txns_buys_1h := 0, txns_sells_1h := 0, txns_buys_24h := 0,
    txns_sells_24h := 0, fdv := 0, pair_address := "p", dex_id := "d" }

/-- A malformed token snapshot: `price_usd = 0` (non-positive). -/
def zeroToken : TokenData :=
  { symbol := "ZERO", address := "addr0", price_usd := 0, price_change_5m := 0,
    price_change_1h := 0, price_change_6h := 0, price_change_24h := 0,
    volume_5m := 0, volume_1h := 0, volume_6h := 0, volume_24h := 0,
    liquidity_usd := 0, txns_buys_5m := 0, txns_sells_5m := 0,
    txns_buys_1h := 0, txns_sells_1h := 0, txns_buys_24h := 0,
    txns_sells_24h := 0, fdv := 0, pair_address := "p", dex_id := "d" }

/-- A security report triggering every bundle-penalty condition at once. -/
def worstReport : SecurityReport :=
  { token_address := "bad", risk_level := RiskLevel.CRITICAL, risk_score := 100,
    liquidity_lock := { is_locked := false, lock_percentage := 0,
                        unlock_date := none, locker_name := none, lock_duration_days := 0 },
    bundle_analysis := { is_bundled := true, bundle_percentage := 80,
                         bundled_wallets_count := 5, deployer_holdings_pct := 25,
                         top_10_holders_pct := 70, sniper_count := 25 },
    is_mintable := true, is_freezable := true, has_blacklist := true, is_mutable := true,
    buy_tax := 0, sell_tax := 0, max_buy_limit := none, is_audited := false,
    audit_provider := none, rugcheck_score := none, rugcheck_risks := [] }

/-- Fifteen strictly increasing prices. -/
def pricesUp : List ℚ := [0, 1, 2, 3, 4, 5, 6, 7, 8, 9, 10, 11, 12, 13, 14]

/-- Fifteen strictly decreasing prices. -/
def pricesDown : List ℚ := [14, 13, 12, 11, 10, 9, 8, 7, 6, 5, 4, 3, 2, 1, 0]

/-! ## Helper lemmas -/

theorem pyRound_zero : pyRound 0 = 0 := by
  simp [pyRound]

theorem roundTo_zero (n : ℕ) : roundTo n 0 = 0 := by
  simp [roundTo, pyRound_zero]

theorem pyRound_intCast (k : ℤ) : pyRound (k : ℚ) = k := by
  simp [pyRound]

theorem riskMultiplier_pos (sr : Option SecurityReport) : 0 < riskMultiplier sr := by
  rcases sr with _ | r
  · norm_num [riskMultiplier]
  · rcases hr : r.risk_level <;> simp [riskMultiplier, hr]

theorem chain_zip_tail {R : ℚ → ℚ → Prop} (l : List ℚ) (h : l.Chain' R) :
    ∀ x ∈ l.tail.zip l, R x.2 x.1 := by
  induction l with
  | nil => intro x hx; simp at hx
  | cons a t ih =>
    cases t with
    | nil => intro x hx; simp at hx
    | cons b t2 =>
      intro x hx
      rw [List.chain'_cons] at h
      rw [List.tail_cons, List.zip_cons_cons] at hx
      rcases List.mem_cons.mp hx with rfl | hx2
      · exact h.1
      · exact ih h.2 x hx2

theorem rsiChanges_all_pos {prices : List ℚ} (h : prices.Chain' (· < ·)) :
    ∀ c ∈ rsiChanges prices, 0 < c := by
  intro c hc
  rw [rsiChanges, List.mem_map] at hc
  obtain ⟨p, hp, rfl⟩ := hc
  have hlt := chain_zip_tail prices h p hp
  linarith

theorem rsiChanges_all_neg {prices : List ℚ} (h : prices.Chain' (fun a b => b < a)) :
    ∀ c ∈ rsiChanges prices, c < 0 := by
  intro c hc
  rw [rsiChanges, List.mem_map] at hc
  obtain ⟨p, hp, rfl⟩ := hc
  have hlt := chain_zip_tail prices h p hp
  linarith

theorem rsiLosses_all_zero {prices : List ℚ} (h : ∀ c ∈ rsiChanges prices, 0 < c) :
    ∀ x ∈ rsiLosses prices, x = 0 := by
  intro x hx
  rw [rsiLosses, List.mem_map] at hx
  obtain ⟨c, hc, rfl⟩ := hx
  rw [if_neg (by linarith [h c hc])]

theorem rsiGains_all_zero {prices : List ℚ} (h : ∀ c ∈ rsiChanges prices, c < 0) :
    ∀ x ∈ rsiGains prices, x = 0 := by
  intro x hx
  rw [rsiGains, List.mem_map] at hx
  obtain ⟨c, hc, rfl⟩ := hx
  rw [if_neg (by linarith [h c hc])]

theorem rsiLosses_all_pos {prices : List ℚ} (h : ∀ c ∈ rsiChanges prices, c < 0) :
    ∀ x ∈ rsiLosses prices, 0 < x := by
  intro x hx
  rw [rsiLosses, List.mem_map] at hx
  obtain ⟨c, hc, rfl⟩ := hx
  rw [if_pos (h c hc)]
  linarith [h c hc]

theorem rsiChanges_length (prices : List ℚ) :
    (rsiChanges prices).length = prices.length - 1 := by
  simp only [rsiChanges, List.length_map, List.length_zip, List.length_tail]
  omega

theorem rsiStep_foldl_snd_zero (period : ℕ) (L : List (ℚ × ℚ)) :
    ∀ a : ℚ × ℚ, a.2 = 0 → (∀ x ∈ L, x.2 = 0) →
      (L.foldl (rsiStep period) a).2 = 0 := by
  induction L with
  | nil => intro a ha _; exact ha
  | cons x t ih =>
    intro a ha hx
    rw [List.foldl_cons]
    apply ih
    · have hx0 : x.2 = 0 := hx x (List.mem_cons_self x t)
      simp [rsiStep, ha, hx0]
    · intro y hy; exact hx y (List.mem_cons_of_mem x hy)

theorem rsiStep_foldl_fst_zero (period : ℕ) (L : List (ℚ × ℚ)) :
    ∀ a : ℚ × ℚ, a.1 = 0 → (∀ x ∈ L, x.1 = 0) →
      (L.foldl (rsiStep period) a).1 = 0 := by
  induction L with
  | nil => intro a ha _; exact ha
  | cons x t ih =>
    intro a ha hx
    rw [List.foldl_cons]
    apply ih
    · have hx0 : x.1 = 0 := hx x (List.mem_cons_self x t)
      simp [rsiStep, ha, hx0]
    · intro y hy; exact hx y (List.mem_cons_of_mem x hy)

theorem rsiStep_foldl_snd_pos (period : ℕ) (hper : 0 < period) (L : List (ℚ × ℚ)) :
    ∀ a : ℚ × ℚ, 0 < a.2 → (∀ x ∈ L, 0 < x.2) →
      0 < (L.foldl (rsiStep period) a).2 := by
  induction L with
  | nil => intro a ha _; exact ha
  | cons x t ih =>
    intro a ha hx
    rw [List.foldl_cons]
    apply ih
    · show 0 < (a.2 * ((period - 1 : ℕ) : ℚ) + x.2) / period
      apply div_pos ?_ (by exact_mod_cast hper)
      have h1 : 0 ≤ a.2 * ((period - 1 : ℕ) : ℚ) := mul_nonneg ha.le (by positivity)
      have h2 : 0 < x.2 := hx x (List.mem_cons_self x t)
      linarith
    · intro y hy; exact hx y (List.mem_cons_of_mem x hy)

/-! ## Claim theorems -/

/-- Claim C1: for every input — any token snapshot, any optional security
report, any optional smart-money report (and any scoring weights) — the
signal returned by `SignalAnalyzer.analyze` has `total_score` in `[0, 100]`
and `pop.pop_score` in `[5, 95]`: the clamps `max(0, min(100, ...))` and
`min(95, max(5, ...))` hold whatever the sub-scores, bonuses and penalties
are. -/
theorem analyze_score_bounds (w : ScoringWeights) (td : TokenData)
    (sr : Option SecurityReport) (smr : Option SmartMoneyReport) :
    0 ≤ (analyze w td sr smr).total_score ∧
    (analyze w td sr smr).total_score ≤ 100 ∧
    5 ≤ (analyze w td sr smr).pop.pop_score ∧
    (analyze w td sr smr).pop.pop_score ≤ 95 :=
  ⟨le_max_left 0 _,
   max_le (by norm_num) (min_le_left _ _),
   le_min (by norm_num) (le_max_left 5 _),
   min_le_left 95 _⟩

/-- Claim C3: absent optional assessments map to the documented neutral
defaults — with no `SecurityReport` the returned signal has
`security_score = 0`, `risk_level = "UNKNOWN"` and exactly the single
warning `"Security data unavailable"`; with no `SmartMoneyReport` it has
smart-money score 50, signal `"NEUTRAL"`, confidence `"LOW"`, and
`_score_smart_money` contributes a zero bonus. -/
theorem analyze_neutral_defaults (w : ScoringWeights) (td : TokenData)
    (sr : Option SecurityReport) (smr : Option SmartMoneyReport) :
    (analyze w td none smr).security_score = 0 ∧
    (analyze w td none smr).risk_level = "UNKNOWN" ∧
    (analyze w td none smr).security_warnings = ["Security data unavailable"] ∧
    (analyze w td sr none).smart_money_score = 50 ∧
    (analyze w td sr none).smart_money_signal = "NEUTRAL" ∧
    (analyze w td sr none).smart_money_confidence = "LOW" ∧
    (scoreSmartMoney none).2.2.2 = 0 :=
  ⟨rfl, rfl, rfl, rfl, rfl, rfl, rfl⟩

set_option maxHeartbeats 1000000 in
/-- Claim C9: the bundle penalty computed by `_score_security` is the plain
uncapped sum of the triggered deltas (+10 bundled, +8 deployer > 20%, +7
top-10 > 60%, +5 snipers > 20, +5 mintable, +5 freezable, +2 mutable); a
report triggering every condition yields 42, above the informal 0-25
budget. -/
theorem bundle_penalty_uncapped (r : SecurityReport) :
    (scoreSecurity (some r)).2.2.1 =
      (if r.bundle_analysis.is_bundled then 10 else 0) +
      (if 20 < r.bundle_analysis.deployer_holdings_pct then 8 else 0) +
      (if 60 < r.bundle_analysis.top_10_holders_pct then 7 else 0) +
      (if 20 < r.bundle_analysis.sniper_count then 5 else 0) +
      (if r.is_mintable then 5 else 0) +
      (if r.is_freezable then 5 else 0) +
      (if r.is_mutable then 2 else 0) ∧
    (scoreSecurity (some worstReport)).2.2.1 = 42 := by
  refine ⟨?_, by decide⟩
  unfold scoreSecurity
  dsimp only
  split_ifs <;> ring

/-- Claim C2 (counterexample): at the malformed input with `price_usd = 0`
(and both optional reports absent), `SignalAnalyzer.analyze` does NOT signal
an invalid-input error — the call returns normally, refuting the claim that
non-positive prices are surfaced as errors. -/
theorem analyze_zero_price_no_error :
    zeroToken.price_usd ≤ 0 ∧
    ¬ ∃ e, analyzeE defaultWeights zeroToken none none = Except.error e := by
  refine ⟨by decide, ?_⟩
  rintro ⟨e, he⟩
  simp [analyzeE] at he

/-- Claim C2 (amended): `SignalAnalyzer.analyze` never raises — not for
absent optional inputs and not for malformed market data either; for a
`TokenData` with non-positive `price_usd` it still returns normally, with a
silently-defaulted plan whose `risk_reward_ratio` is 0 (the risk leg is
non-positive). -/
theorem analyze_never_raises (w : ScoringWeights) (td : TokenData)
    (sr : Option SecurityReport) (smr : Option SmartMoneyReport) :
    analyzeE w td sr smr = Except.ok (analyze w td sr smr) ∧
    (td.price_usd ≤ 0 → (analyze w td sr smr).risk_reward_ratio = 0) := by
  refine ⟨rfl, fun hp => ?_⟩
  have hfield : (analyze w td sr smr).risk_reward_ratio =
      roundTo 2 (if 0 < td.price_usd - td.price_usd * (1 - 2 / 25 * riskMultiplier sr)
        then (td.price_usd * (1 + 3 / 10 / riskMultiplier sr) - td.price_usd) /
             (td.price_usd - td.price_usd * (1 - 2 / 25 * riskMultiplier sr))
        else 0) := rfl
  have hm := riskMultiplier_pos sr
  have hneg : ¬ (0 < td.price_usd - td.price_usd * (1 - 2 / 25 * riskMultiplier sr)) := by
    have he : td.price_usd - td.price_usd * (1 - 2 / 25 * riskMultiplier sr)
        = td.price_usd * (2 / 25 * riskMultiplier sr) := by ring
    rw [he]
    push_neg
    nlinarith
  rw [hfield, if_neg hneg, roundTo_zero]

/-- Claim C2 (witness): the amended theorem applied at the concrete
zero-price token. -/
theorem analyze_never_raises_check :
    (analyze defaultWeights zeroToken none none).risk_reward_ratio = 0 :=
  (analyze_never_raises defaultWeights zeroToken none none).2 (by decide)

/-- Claim C4 (counterexample): at entry 1.00 with no security data the
returned `risk_reward_ratio` (1.67, rounded to two decimals by the code) is
NOT equal to the exact ratio `(TP2 - entry)/(entry - stop) = 5/3`, refuting
the claimed exact equality. -/
theorem trade_plan_exact_ratio_fails :
    (analyze defaultWeights oneToken none none).risk_reward_ratio ≠
      ((analyze defaultWeights oneToken none none).take_profit_2 - oneToken.price_usd) /
      (oneToken.price_usd - (analyze defaultWeights oneToken none none).stop_loss) := by
  rw [show (analyze defaultWeights oneToken none none).risk_reward_ratio =
      roundTo 2 (if 0 < oneToken.price_usd - oneToken.price_usd * (1 - 2 / 25 * riskMultiplier none)
        then (oneToken.price_usd * (1 + 3 / 10 / riskMultiplier none) - oneToken.price_usd) /
             (oneToken.price_usd - oneToken.price_usd * (1 - 2 / 25 * riskMultiplier none))
        else 0) from rfl,
     show (analyze defaultWeights oneToken none none).take_profit_2 =
      oneToken.price_usd * (1 + 3 / 10 / riskMultiplier none) from rfl,
     show (analyze defaultWeights oneToken none none).stop_loss =
      oneToken.price_usd * (1 - 2 / 25 * riskMultiplier none) from rfl]
  norm_num [oneToken, riskMultiplier, roundTo, pyRound]

/-- Claim C4 (amended): for every entry price and optional security report,
`stop_loss = entry * (1 - 0.08 * m)` and
`take_profit_k = entry * (1 + (0.15 | 0.30 | 0.50) / m)` hold exactly, with
multiplier `m` equal to 1 / 1.25 / 1.5 / 2 for LOW / MEDIUM / HIGH /
CRITICAL and 1.5 when the report is absent; `risk_reward_ratio` equals the
ratio `(TP2 - entry)/(entry - stop)` ROUNDED TO TWO DECIMALS (0 when the
denominator is non-positive); entry 1.00 with no security data yields stop
0.88 and TP2 1.20. -/
theorem trade_plan_formulas (w : ScoringWeights) (td : TokenData)
    (sr : Option SecurityReport) (smr : Option SmartMoneyReport) :
    (analyze w td sr smr).stop_loss = td.price_usd * (1 - 2 / 25 * riskMultiplier sr) ∧
    (analyze w td sr smr).take_profit_1 = td.price_usd * (1 + 3 / 20 / riskMultiplier sr) ∧
    (analyze w td sr smr).take_profit_2 = td.price_usd * (1 + 3 / 10 / riskMultiplier sr) ∧
    (analyze w td sr smr).take_profit_3 = td.price_usd * (1 + 1 / 2 / riskMultiplier sr) ∧
    (analyze w td sr smr).risk_reward_ratio =
      (if 0 < td.price_usd - (analyze w td sr smr).stop_loss then
        roundTo 2 (((analyze w td sr smr).take_profit_2 - td.price_usd) /
          (td.price_usd - (analyze w td sr smr).stop_loss))
       else 0) ∧
    riskMultiplier none = 3 / 2 ∧
    (∀ r : SecurityReport, riskMultiplier (some r) =
      match r.risk_level with
      | RiskLevel.LOW => 1
      | RiskLevel.MEDIUM => 5 / 4
      | RiskLevel.HIGH => 3 / 2
      | RiskLevel.CRITICAL => 2) ∧
    (analyze defaultWeights oneToken none none).stop_loss = 22 / 25 ∧
    (analyze defaultWeights oneToken none none).take_profit_2 = 6 / 5 := by
  refine ⟨rfl, rfl, rfl, rfl, ?_, rfl, fun r => rfl,
    by rw [show (analyze defaultWeights oneToken none none).stop_loss =
        oneToken.price_usd * (1 - 2 / 25 * riskMultiplier none) from rfl]
       norm_num [oneToken, riskMultiplier],
    by rw [show (analyze defaultWeights oneToken none none).take_profit_2 =
        oneToken.price_usd * (1 + 3 / 10 / riskMultiplier none) from rfl]
       norm_num [oneToken, riskMultiplier]⟩
  rw [show (analyze w td sr smr).risk_reward_ratio =
      roundTo 2 (if 0 < td.price_usd - td.price_usd * (1 - 2 / 25 * riskMultiplier sr)
        then (td.price_usd * (1 + 3 / 10 / riskMultiplier sr) - td.price_usd) /
             (td.price_usd - td.price_usd * (1 - 2 / 25 * riskMultiplier sr))
        else 0) from rfl,
     show (analyze w td sr smr).stop_loss = td.price_usd * (1 - 2 / 25 * riskMultiplier sr) from rfl,
     show (analyze w td sr smr).take_profit_2 = td.price_usd * (1 + 3 / 10 / riskMultiplier sr) from rfl]
  split_ifs with h
  · rfl
  · exact roundTo_zero 2

/-- Claim C8 (counterexample): with 1 whale buy and 0 whale sells the
buy-ratio in the claim's sense, `buys / (buys + sells) = 1`, exceeds 60%,
yet `_calculate_score` adds no +8: the code divides by
`buys + sells + 1`, giving 1/2. -/
theorem whale_ratio_plain_fails :
    whaleRatioDelta 1 0 = 0 ∧ (3 : ℚ) / 5 < (1 : ℚ) / ((1 : ℚ) + 0) := by
  constructor
  · norm_num [whaleRatioDelta]
  · norm_num

/-- Claim C8 (amended): the ±8 whale contribution is keyed to the ratio
`buys / (buys + sells + 1)` (note the `+ 1`): for all non-negative counts,
+8 is added exactly when that ratio exceeds 60% — equivalently
`2*buys > 3*sells + 3` — and 8 is subtracted exactly when it is below 40% —
equivalently `3*buys < 2*sells + 2`. -/
theorem whale_ratio_bonus_char (buys sells : ℤ) (hb : 0 ≤ buys) (hs : 0 ≤ sells) :
    (whaleRatioDelta buys sells = 8 ↔ 3 * sells + 3 < 2 * buys) ∧
    (whaleRatioDelta buys sells = -8 ↔ 3 * buys < 2 * sells + 2) := by
  have hd : (0 : ℚ) < (buys : ℚ) + (sells : ℚ) + 1 := by
    have hb' : (0 : ℚ) ≤ (buys : ℚ) := by exact_mod_cast hb
    have hs' : (0 : ℚ) ≤ (sells : ℚ) := by exact_mod_cast hs
    linarith
  have h1 : ((3 : ℚ) / 5 < (buys : ℚ) / ((buys : ℚ) + (sells : ℚ) + 1)) ↔
      (3 * sells + 3 < 2 * buys) := by
    rw [div_lt_div_iff₀ (by norm_num) hd]
    constructor
    · intro h
      have h' : 3 * (buys + sells + 1) < buys * 5 := by exact_mod_cast h
      omega
    · intro h
      have h' : 3 * (buys + sells + 1) < buys * 5 := by omega
      exact_mod_cast h'
  have h2 : ((buys : ℚ) / ((buys : ℚ) + (sells : ℚ) + 1) < (2 : ℚ) / 5) ↔
      (3 * buys < 2 * sells + 2) := by
    rw [div_lt_div_iff₀ hd (by norm_num)]
    constructor
    · intro h
      have h' : buys * 5 < 2 * (buys + sells + 1) := by exact_mod_cast h
      omega
    · intro h
      have h' : buys * 5 < 2 * (buys + sells + 1) := by omega
      exact_mod_cast h'
  simp only [whaleRatioDelta]
  split_ifs with hA hB
  · exact ⟨iff_of_true rfl (h1.mp hA),
      iff_of_false (by norm_num) (fun hc => absurd (h2.mpr hc) (by intro h; linarith [gt_iff_lt.mp hA]))⟩
  · exact ⟨iff_of_false (by norm_num) (fun hc => hA (h1.mpr hc)),
      iff_of_true rfl (h2.mp hB)⟩
  · exact ⟨iff_of_false (by norm_num) (fun hc => hA (h1.mpr hc)),
      iff_of_false (by norm_num) (fun hc => hB (h2.mpr hc))⟩

/-- Claim C8 (witness): 4 whale buys against 1 whale sell clear the amended
threshold and receive the +8. -/
theorem whale_ratio_bonus_char_check : whaleRatioDelta 4 1 = 8 :=
  ((whale_ratio_bonus_char 4 1 (by norm_num) (by norm_num)).1).mpr (by norm_num)

theorem expectedReturn_eq_tenths (p : ℤ) : expectedReturn p = (erTenths p : ℚ) / 10 := by
  unfold expectedReturn erTenths roundTo
  split_ifs with h1 h2
  · have h : (15 + ((p : ℚ) - 70) * (1 / 2)) * 10 ^ 1 = ((150 + 5 * (p - 70) : ℤ) : ℚ) := by
      push_cast; ring
    rw [h, pyRound_intCast]; norm_num
  · have h : (5 + ((p : ℚ) - 50) * (1 / 2)) * 10 ^ 1 = ((50 + 5 * (p - 50) : ℤ) : ℚ) := by
      push_cast; ring
    rw [h, pyRound_intCast]; norm_num
  · have h : (-5 + (p : ℚ) * (1 / 5)) * 10 ^ 1 = ((-50 + 2 * p : ℤ) : ℚ) := by
      push_cast; ring
    rw [h, pyRound_intCast]; norm_num

/-- Claim C10: the `expected_return` computed by `_calculate_pop` (the
`expectedReturn` branch of the code, applied to the final `pop_score`) is
strictly monotonically increasing in the PoP score over the attainable
range [5, 95] — within each band and across both band boundaries. -/
theorem expected_return_strict_mono (p q : ℤ) (hp : 5 ≤ p) (hpq : p < q) (hq : q ≤ 95) :
    expectedReturn p < expectedReturn q := by
  rw [expectedReturn_eq_tenths, expectedReturn_eq_tenths]
  have h : erTenths p < erTenths q := by
    unfold erTenths
    split_ifs <;> omega
  have h' : ((erTenths p : ℤ) : ℚ) < ((erTenths q : ℤ) : ℚ) := by exact_mod_cast h
  linarith

/-- Claim C10 (witness): the monotonicity theorem applied at the concrete
scores 30 and 80. -/
theorem expected_return_strict_mono_check : expectedReturn 30 < expectedReturn 80 :=
  expected_return_strict_mono 30 80 (by norm_num) (by norm_num) (by norm_num)

/-- Claim C5: `calculate_rsi` returns the neutral 50.0 for any list with
fewer than `period + 1` points; with the default period 14 it returns 100.0
on every monotonically increasing series of length at least 15 and 0.0 on
every monotonically decreasing one. -/
theorem rsi_extreme_values (prices : List ℚ) (period : ℕ) :
    (prices.length < period + 1 → calculateRsi prices period = 50) ∧
    (15 ≤ prices.length → prices.Chain' (· < ·) → calculateRsi prices 14 = 100) ∧
    (15 ≤ prices.length → prices.Chain' (fun a b => b < a) → calculateRsi prices 14 = 0) := by
  refine ⟨fun h => ?_, fun hlen hch => ?_, fun hlen hch => ?_⟩
  · rw [calculateRsi, if_pos h]
  · have hz : (rsiAvgs prices 14).2 = 0 := by
      rw [rsiAvgs]
      apply rsiStep_foldl_snd_zero
      · show ((rsiLosses prices).take 14).sum / ((14 : ℕ) : ℚ) = 0
        rw [List.sum_eq_zero fun x hx =>
          rsiLosses_all_zero (rsiChanges_all_pos hch) x (List.take_subset 14 _ hx)]
        norm_num
      · rintro ⟨g, l⟩ hgl
        have hmem := (List.of_mem_zip hgl).2
        exact rsiLosses_all_zero (rsiChanges_all_pos hch) l (List.drop_subset 14 _ hmem)
    rw [calculateRsi, if_neg (by omega), if_pos hz]
  · have hg : (rsiAvgs prices 14).1 = 0 := by
      rw [rsiAvgs]
      apply rsiStep_foldl_fst_zero
      · show ((rsiGains prices).take 14).sum / ((14 : ℕ) : ℚ) = 0
        rw [List.sum_eq_zero fun x hx =>
          rsiGains_all_zero (rsiChanges_all_neg hch) x (List.take_subset 14 _ hx)]
        norm_num
      · rintro ⟨g, l⟩ hgl
        have hmem := (List.of_mem_zip hgl).1
        exact rsiGains_all_zero (rsiChanges_all_neg hch) g (List.drop_subset 14 _ hmem)
    have hl : 0 < (rsiAvgs prices 14).2 := by
      rw [rsiAvgs]
      apply rsiStep_foldl_snd_pos 14 (by norm_num)
      · show 0 < ((rsiLosses prices).take 14).sum / ((14 : ℕ) : ℚ)
        apply div_pos ?_ (by norm_num)
        apply List.sum_pos
        · intro x hx
          exact rsiLosses_all_pos (rsiChanges_all_neg hch) x (List.take_subset 14 _ hx)
        · intro hnil
          have hlen2 : (rsiLosses prices).length = prices.length - 1 := by
            rw [rsiLosses, List.length_map, rsiChanges_length]
          have := congrArg List.length hnil
          simp only [List.length_take, hlen2, List.length_nil] at this
          omega
      · rintro ⟨g, l⟩ hgl
        have hmem := (List.of_mem_zip hgl).2
        exact rsiLosses_all_pos (rsiChanges_all_neg hch) l (List.drop_subset 14 _ hmem)
    rw [calculateRsi, if_neg (by omega), if_neg (by exact fun he => absurd he (ne_of_gt hl)),
      hg, zero_div, show (1 : ℚ) + 0 = 1 by norm_num,
      show (100 : ℚ) - 100 / 1 = 0 by norm_num, roundTo_zero]

/-- Claim C5 (witness): the theorem applied to a 3-point list (neutral 50),
a strictly increasing 15-point list (100) and a strictly decreasing one
(0). -/
theorem rsi_extreme_values_check :
    calculateRsi [1, 2, 3] 14 = 50 ∧
    calculateRsi pricesUp 14 = 100 ∧
    calculateRsi pricesDown 14 = 0 :=
  ⟨(rsi_extreme_values [1, 2, 3] 14).1 (by norm_num),
   (rsi_extreme_values pricesUp 14).2.1 (by norm_num [pricesUp]) (by norm_num [pricesUp]),
   (rsi_extreme_values pricesDown 14).2.2 (by norm_num [pricesDown]) (by norm_num [pricesDown])⟩

/-- Claim C6: `detect_consolidation_break` returns false whenever the recent
range divided by the mean is at least the tightness threshold, whatever the
current price; and it returns true only when that ratio is below the
threshold AND the current price exceeds the recent high by more than 2%. -/
theorem consolidation_break_char (prices : List ℚ) (cur : ℚ)
    (lookback : ℕ) (threshold : ℚ) :
    (threshold ≤ consolRangePercent prices lookback →
      detectConsolidationBreak prices cur lookback threshold = false) ∧
    (detectConsolidationBreak prices cur lookback threshold = true →
      consolRangePercent prices lookback < threshold ∧
      listMax (recentSlice prices lookback) * (51 / 50) < cur) := by
  constructor
  · intro h
    rw [detectConsolidationBreak]
    split_ifs with h1 h2 h3 h4
    · rfl
    · rfl
    · exact absurd h3 (not_lt.mpr h)
    · rfl
    · rfl
  · intro h
    rw [detectConsolidationBreak] at h
    split_ifs at h with h1 h2 h3 h4
    exact ⟨h3, h4⟩

/-- Claim C6 (witness): a two-point window with a wide range (ratio 2/3
against threshold 1/20) is never a breakout, however high the current
price. -/
theorem consolidation_break_char_check :
    detectConsolidationBreak [100, 200] 1000 2 (1 / 20) = false :=
  (consolidation_break_char [100, 200] 1000 2 (1 / 20)).1
    (by norm_num [consolRangePercent, recentSlice, listMax, listMin, max_def, min_def])

/-- Claim C7 (counterexample): with prices [1, 1, 2] and uniform volumes
[1, 1, 1] the VWAP returned by `calculate_vwap` is `round(4/3, 8)`, which
differs from the exact arithmetic mean 4/3: the code rounds the quotient to
8 decimal places. -/
theorem vwap_rounding_fails :
    (calculateVwap [1, 1, 2] [1, 1, 1]).1 ≠ ((1 : ℚ) + 1 + 2) / 3 := by
  have hfl : ⌊(4 / 3 : ℚ) * 10 ^ 8⌋ = 133333333 := by
    rw [Int.floor_eq_iff]
    norm_num
  rw [calculateVwap, if_neg (by simp), if_neg (by norm_num)]
  norm_num [roundTo, pyRound, hfl]

theorem sum_zip_replicate_mul (v : ℚ) (l : List ℚ) :
    ((l.zip (List.replicate l.length v)).map fun pv => pv.1 * pv.2).sum = v * l.sum := by
  induction l with
  | nil => simp
  | cons a t ih =>
    simp only [List.length_cons, List.replicate_succ, List.zip_cons_cons, List.map_cons,
      List.sum_cons, ih]
    ring

/-- Claim C7 (amended): for every non-empty price list with uniform positive
volumes, the VWAP returned by `calculate_vwap` equals the arithmetic mean of
the prices ROUNDED TO 8 DECIMAL PLACES (the pre-rounding quotient is exactly
the mean). -/
theorem vwap_uniform_mean (prices : List ℚ) (v : ℚ) (hne : prices ≠ []) (hv : 0 < v) :
    (calculateVwap prices (List.replicate prices.length v)).1 =
      roundTo 8 (prices.sum / (prices.length : ℚ)) := by
  have hn : prices.length ≠ 0 := fun h => hne (List.length_eq_zero.mp h)
  have hrep : List.replicate prices.length v ≠ [] := by
    intro h
    exact hn (by simpa using congrArg List.length h)
  have hsum : (List.replicate prices.length v).sum = (prices.length : ℚ) * v := by
    rw [List.sum_replicate, nsmul_eq_mul]
  rw [calculateVwap,
    if_neg (by push_neg; exact ⟨hne, hrep, by rw [List.length_replicate]⟩),
    if_neg (by rw [hsum]; exact mul_ne_zero (by exact_mod_cast hn) (ne_of_gt hv))]
  show roundTo 8
      (((prices.zip (List.replicate prices.length v)).map fun pv => pv.1 * pv.2).sum /
        (List.replicate prices.length v).sum) = _
  rw [sum_zip_replicate_mul, hsum, mul_comm (prices.length : ℚ) v,
    mul_div_mul_left _ _ (ne_of_gt hv)]

/-- Claim C7 (witness): the amended theorem applied to prices [1, 2] with
uniform volume 1. -/
theorem vwap_uniform_mean_check :
    (calculateVwap [(1 : ℚ), 2] (List.replicate ([(1 : ℚ), 2]).length 1)).1 =
      roundTo 8 (([(1 : ℚ), 2]).sum / ((([(1 : ℚ), 2]).length : ℕ) : ℚ)) :=
  vwap_uniform_mean [1, 2] 1 (by simp) (by norm_num)

end CryptoSignals
